import Mathlib


/-!
Verification development for the query admission and execution core of
mcp-server-mysql (TypeScript sources under src/).

The embedding below translates the relevant TypeScript functions into Lean:

* src/config/index.ts — environment-derived configuration constants
  (ALLOW_*_OPERATION, SCHEMA_*_PERMISSIONS, isMultiDbMode,
  MYSQL_DISABLE_READ_ONLY_TRANSACTIONS).  The process environment is
  modelled as an explicit record of optional strings, so each module-level
  constant becomes a function of that record.
* src/utils/index.ts — parseSchemaPermissions.  JS plain objects are
  modelled as association lists of own properties together with the
  inherited Object.prototype members: property assignment is objSet
  (updating in place, and a no-op for the inherited prototype accessor),
  own-key lookup is objGet, the in-operator is objHas and the truthiness
  of indexing is objIndexTruthy, all traversing the prototype chain as
  the JS semantics does.
* src/db/permissions.ts — isInsertAllowedForSchema and friends.
* src/db/utils.ts — extractSchemaFromQuery (the two regular expressions
  are embedded as deterministic leftmost-match scanners, which for these
  two particular patterns coincide with the JS backtracking semantics)
  and getQueryTypes (the external node-sql-parser is an explicit
  functional parameter).
* src/db/index.ts — executeWriteQuery and executeReadOnlyQuery.  The
  database connection is an oracle record (Db); each awaited driver call
  is recorded as an event, so the value of a run is an event trace plus
  the returned envelope or thrown error.  performance.now() is modelled
  by a clock that advances by an oracle-chosen duration at each awaited
  call, exactly where the code awaits.

Strings in the JS sources use ASCII; character classes are embedded for
the ASCII range.
-/

/-- Single-quote character, used when building user-visible messages. -/
def squote : String := String.mk [Char.ofNat 39]

/-- Backtick character, used by the schema-extraction regular expressions. -/
def btick : Char := Char.ofNat 96

/-- JS regex word class [a-zA-Z0-9_] (ASCII). -/
def isWordChar (c : Char) : Bool := (c.isAlpha || c.isDigit) || c == Char.ofNat 95

/-- JS regex whitespace class (ASCII part). -/
def isSpaceJS (c : Char) : Bool :=
  c == Char.ofNat 32 || c == Char.ofNat 9 || c == Char.ofNat 10 ||
  c == Char.ofNat 13 || c == Char.ofNat 11 || c == Char.ofNat 12

/-- JS String.prototype.trim restricted to ASCII whitespace. -/
def trimJS (cs : List Char) : List Char :=
  ((cs.dropWhile isSpaceJS).reverse.dropWhile isSpaceJS).reverse

/-- JS String.prototype.toLowerCase restricted to ASCII. -/
def toLowerJS (s : String) : String := String.mk (s.data.map Char.toLower)

/-- JS string truthiness for an optional environment value: undefined and
the empty string are falsy. -/
def truthyStr : Option String → Bool
  | none => false
  | some s => !(s == "")

/-- JS expression (a || b) on optional strings. -/
def jsOr (a b : Option String) : Option String := if truthyStr a then a else b

/-- JS expression (x || null) on an optional string. -/
def orNull (o : Option String) : Option String := if truthyStr o then o else none

/-- JS split on a one-character separator: always returns at least one
(possibly empty) segment. -/
def splitOnChar (sep : Char) : List Char → List (List Char)
  | [] => [[]]
  | c :: rest =>
    match splitOnChar sep rest with
    | [] => [[]]
    | g :: gs => if c == sep then [] :: g :: gs else (c :: g) :: gs

/-- The own property names of Object.prototype, inherited by every
plain object literal: the JS in-operator finds them on any object, and
indexing one of them on an object with no such own key yields the
inherited member (a function, or for the accessor the prototype
object), which is truthy. -/
def protoKeys : List String :=
  ["constructor", "hasOwnProperty", "isPrototypeOf", "propertyIsEnumerable",
   "toLocaleString", "toString", "valueOf", "__proto__",
   "__defineGetter__", "__defineSetter__", "__lookupGetter__", "__lookupSetter__"]

/-- The one Object.prototype member that is an accessor with a setter:
assigning it on a plain object creates no own property. -/
def protoSetterKey : String := "__proto__"

/-- Own-property lookup in the JS-object model (association list with
unique keys): the stored boolean of an own key, none otherwise.  The
in-operator and indexing, which also traverse the prototype chain, are
objHas and objIndexTruthy below. -/
def objGet (m : List (String × Bool)) (k : String) : Option Bool :=
  match m with
  | [] => none
  | (k0, v) :: rest => if k0 = k then some v else objGet rest k

/-- Property assignment (obj[k] = v) in the JS-object model: overwrite
in place when the key is an own key, append otherwise — except that
assigning to protoSetterKey with no own key present invokes the
inherited Object.prototype accessor setter, which for a boolean value is
a no-op that creates no own property on a plain object literal. -/
def objSet (m : List (String × Bool)) (k : String) (v : Bool) : List (String × Bool) :=
  match m with
  | [] => if k = protoSetterKey then [] else [(k, v)]
  | (k0, v0) :: rest => if k0 = k then (k, v) :: rest else (k0, v0) :: objSet rest k v

/-- The JS in-operator (k in obj) on a plain object literal: an own key
or an inherited Object.prototype member name. -/
def objHas (m : List (String × Bool)) (k : String) : Bool :=
  (objGet m k).isSome || protoKeys.contains k

/-- Truthiness of the JS indexing obj[k] on a plain object literal: the
stored boolean of an own key; for an inherited Object.prototype member
the inherited value (function or prototype object), which is truthy; and
undefined (falsy) otherwise. -/
def objIndexTruthy (m : List (String × Bool)) (k : String) : Bool :=
  match objGet m k with
  | some b => b
  | none => protoKeys.contains k

/-- The process environment variables consumed by the core, each possibly
undefined. -/
structure Env where
  mysqlDb : Option String
  connStringDb : Option String
  multiDbWriteMode : Option String
  allowInsert : Option String
  allowUpdate : Option String
  allowDelete : Option String
  allowDdl : Option String
  schemaInsertPerms : Option String
  schemaUpdatePerms : Option String
  schemaDeletePerms : Option String
  schemaDdlPerms : Option String
  disableReadOnlyTx : Option String
  deriving Repr, DecidableEq

/-- src/utils/index.ts parseSchemaPermissions: parse a
comma-separated list of name:bool pairs into a JS object, skipping pairs
with a missing (empty) name or value; later pairs overwrite earlier ones
via property assignment. -/
def parseSchemaPermissions (permissionsString : Option String) : List (String × Bool) :=
  match permissionsString with
  | none => []
  | some s =>
    if s == "" then []
    else
      (splitOnChar (Char.ofNat 44) s.data).foldl
        (fun permissions pair =>
          match splitOnChar (Char.ofNat 58) pair with
          | schema :: value :: _ =>
            if !(schema.isEmpty) && !(value.isEmpty) then
              objSet permissions (String.mk (trimJS schema)) (trimJS value == ("true").data)
            else permissions
          | _ => permissions)
        []

/-- src/config/index.ts ALLOW_INSERT_OPERATION. -/
def ALLOW_INSERT_OPERATION (e : Env) : Bool := e.allowInsert == some ("true")

/-- src/config/index.ts ALLOW_UPDATE_OPERATION. -/
def ALLOW_UPDATE_OPERATION (e : Env) : Bool := e.allowUpdate == some ("true")

/-- src/config/index.ts ALLOW_DELETE_OPERATION. -/
def ALLOW_DELETE_OPERATION (e : Env) : Bool := e.allowDelete == some ("true")

/-- src/config/index.ts ALLOW_DDL_OPERATION. -/
def ALLOW_DDL_OPERATION (e : Env) : Bool := e.allowDdl == some ("true")

/-- src/config/index.ts MYSQL_DISABLE_READ_ONLY_TRANSACTIONS. -/
def MYSQL_DISABLE_READ_ONLY_TRANSACTIONS (e : Env) : Bool :=
  e.disableReadOnlyTx == some ("true")

/-- src/config/index.ts SCHEMA_INSERT_PERMISSIONS. -/
def SCHEMA_INSERT_PERMISSIONS (e : Env) : List (String × Bool) :=
  parseSchemaPermissions e.schemaInsertPerms

/-- src/config/index.ts SCHEMA_UPDATE_PERMISSIONS. -/
def SCHEMA_UPDATE_PERMISSIONS (e : Env) : List (String × Bool) :=
  parseSchemaPermissions e.schemaUpdatePerms

/-- src/config/index.ts SCHEMA_DELETE_PERMISSIONS. -/
def SCHEMA_DELETE_PERMISSIONS (e : Env) : List (String × Bool) :=
  parseSchemaPermissions e.schemaDeletePerms

/-- src/config/index.ts SCHEMA_DDL_PERMISSIONS. -/
def SCHEMA_DDL_PERMISSIONS (e : Env) : List (String × Bool) :=
  parseSchemaPermissions e.schemaDdlPerms

/-- src/config/index.ts: the database name resolved from the connection
string or MYSQL_DB (connectionStringConfig.database || process.env.MYSQL_DB). -/
def dbFromEnvOrConnString (e : Env) : Option String := jsOr e.connStringDb e.mysqlDb

/-- src/config/index.ts isMultiDbMode:
(!db || db.trim() === "") for the resolved database name. -/
def isMultiDbMode (e : Env) : Bool :=
  match dbFromEnvOrConnString e with
  | none => true
  | some s => s == "" || String.mk (trimJS s.data) == ""

/-- src/db/permissions.ts isInsertAllowedForSchema.  A falsy schema
(null or the empty string) yields the global flag; otherwise the
in-operator is consulted — which also finds inherited Object.prototype
member names — and the indexed value (abstracted to its truthiness, the
only way the callers use it) is returned, else the global flag. -/
def isInsertAllowedForSchema (e : Env) (schema : Option String) : Bool :=
  match schema with
  | none => ALLOW_INSERT_OPERATION e
  | some s =>
    if s == "" then ALLOW_INSERT_OPERATION e
    else if objHas (SCHEMA_INSERT_PERMISSIONS e) s then
      objIndexTruthy (SCHEMA_INSERT_PERMISSIONS e) s
    else ALLOW_INSERT_OPERATION e

/-- src/db/permissions.ts isUpdateAllowedForSchema. -/
def isUpdateAllowedForSchema (e : Env) (schema : Option String) : Bool :=
  match schema with
  | none => ALLOW_UPDATE_OPERATION e
  | some s =>
    if s == "" then ALLOW_UPDATE_OPERATION e
    else if objHas (SCHEMA_UPDATE_PERMISSIONS e) s then
      objIndexTruthy (SCHEMA_UPDATE_PERMISSIONS e) s
    else ALLOW_UPDATE_OPERATION e

/-- src/db/permissions.ts isDeleteAllowedForSchema. -/
def isDeleteAllowedForSchema (e : Env) (schema : Option String) : Bool :=
  match schema with
  | none => ALLOW_DELETE_OPERATION e
  | some s =>
    if s == "" then ALLOW_DELETE_OPERATION e
    else if objHas (SCHEMA_DELETE_PERMISSIONS e) s then
      objIndexTruthy (SCHEMA_DELETE_PERMISSIONS e) s
    else ALLOW_DELETE_OPERATION e

/-- src/db/permissions.ts isDDLAllowedForSchema. -/
def isDDLAllowedForSchema (e : Env) (schema : Option String) : Bool :=
  match schema with
  | none => ALLOW_DDL_OPERATION e
  | some s =>
    if s == "" then ALLOW_DDL_OPERATION e
    else if objHas (SCHEMA_DDL_PERMISSIONS e) s then
      objIndexTruthy (SCHEMA_DDL_PERMISSIONS e) s
    else ALLOW_DDL_OPERATION e

/-- Consume one optional backtick, the embedding of the regex piece
encoding an optional backtick quote.  For the two patterns below the
greedy choice is the only one that can succeed, so the optional quote is
deterministic. -/
def dropBacktickOpt (cs : List Char) : List Char :=
  match cs with
  | c :: rest => if c == btick then rest else c :: rest
  | [] => []

/-- Attempt to match, at the start of the text, the USE-statement pattern
of src/db/utils.ts (case-insensitive USE, then whitespace, then an
optionally backtick-quoted word), returning the captured word. -/
def matchUseAt (cs : List Char) : Option String :=
  match cs with
  | c1 :: c2 :: c3 :: rest =>
    if c1.toLower == Char.ofNat 117 && c2.toLower == Char.ofNat 115 &&
        c3.toLower == Char.ofNat 101 then
      let ws := rest.takeWhile isSpaceJS
      if ws.isEmpty then none
      else
        let body := dropBacktickOpt (rest.dropWhile isSpaceJS)
        let w := body.takeWhile isWordChar
        if w.isEmpty then none else some (String.mk w)
    else none
  | _ => none

/-- Attempt to match, at the start of the text, the qualified-reference
pattern of src/db/utils.ts (optionally quoted word, dot, optionally
quoted word), returning the first captured word. -/
def matchDbTableAt (cs : List Char) : Option String :=
  let body := dropBacktickOpt cs
  let w := body.takeWhile isWordChar
  if w.isEmpty then none
  else
    match dropBacktickOpt (body.dropWhile isWordChar) with
    | d :: rest3 =>
      if d == Char.ofNat 46 then
        match dropBacktickOpt rest3 with
        | t :: _ => if isWordChar t then some (String.mk w) else none
        | [] => none
      else none
    | [] => none

/-- Leftmost match: try the pattern at every start position, in order,
as the JS regex engine does for an unanchored pattern. -/
def scanMatch (f : List Char → Option String) : List Char → Option String
  | [] => f []
  | c :: rest =>
    match f (c :: rest) with
    | some r => some r
    | none => scanMatch f rest

/-- The useMatch of src/db/utils.ts extractSchemaFromQuery. -/
def useMatch (sql : String) : Option String := scanMatch matchUseAt sql.data

/-- The dbTableMatch of src/db/utils.ts extractSchemaFromQuery. -/
def dbTableMatch (sql : String) : Option String := scanMatch matchDbTableAt sql.data

/-- The Permission Evaluator as worded by the specification: look the
schema up in the override map for the category; if present return its
boolean, else return the global flag (null schema: the global flag).
Used to compare the specified policy with the permission check of the
code. -/
def isAllowedPolicy (flag : Bool) (m : List (String × Bool)) (schema : Option String) : Bool :=
  match schema with
  | none => flag
  | some s =>
    match objGet m s with
    | some b => b
    | none => flag

/-- src/db/utils.ts extractSchemaFromQuery: configured default wins in
single-DB mode; otherwise first the USE pattern, then the qualified
reference pattern, then the default (possibly null). -/
def extractSchemaFromQuery (e : Env) (sql : String) : Option String :=
  let defaultSchema := orNull e.mysqlDb
  if defaultSchema.isSome && !(isMultiDbMode e) then defaultSchema
  else
    match useMatch sql with
    | some s => some s
    | none =>
      match dbTableMatch sql with
      | some s => some s
      | none => defaultSchema

/-- One parsed statement of the external node-sql-parser: only its
(optional) type field is relevant to the core. -/
structure SqlAst where
  type : Option String
  deriving Repr, DecidableEq

/-- The astify result shape: a single AST or an array of ASTs. -/
inductive AstOrArray where
  | single (a : SqlAst)
  | array (l : List SqlAst)
  deriving Repr, DecidableEq

/-- The Array.isArray normalisation in getQueryTypes. -/
def astToStatements : AstOrArray → List SqlAst
  | .single a => [a]
  | .array l => l

/-- src/db/utils.ts getQueryTypes: classify via the external parser
(passed as a function), mapping each statement to its lower-cased type,
unknown when absent; a parser failure becomes the Parsing-failed error. -/
def getQueryTypes (astify : String → Except String AstOrArray) (query : String) :
    Except String (List String) :=
  match astify query with
  | .ok r => .ok ((astToStatements r).map (fun stmt => (stmt.type.map toLowerJS).getD ("unknown")))
  | .error msg => .error ("Parsing failed: " ++ msg)

/-- One awaited driver call of src/db/index.ts, recorded in order of
execution. -/
inductive Ev where
  | getPool
  | acquire
  | setReadOnly
  | beginTx
  | execQuery
  | commitTx
  | rollbackTx
  | setReadWrite
  | release
  deriving Repr, DecidableEq

/-- One item of a result envelope. -/
structure ContentItem where
  type : String
  text : String
  deriving Repr, DecidableEq

/-- The uniform result envelope. -/
structure Envelope where
  content : List ContentItem
  isError : Bool
  deriving Repr, DecidableEq

/-- Behaviour of the pooled connection for the single statement-execution
call, plus the clock increments consumed by each awaited call before it
(performance.now() is modelled as a clock that advances by the oracle
chosen duration at each await). -/
structure Db where
  t0 : Nat
  getPoolDur : Nat
  acquireDur : Nat
  setReadOnlyDur : Nat
  beginDur : Nat
  execDur : Nat
  execOk : Bool
  errMsg : String
  affectedRows : Nat
  insertId : Nat
  changedRows : Nat
  rowsJson : String
  deriving Repr, DecidableEq

/-- Result of the read path: a returned envelope or a re-thrown error. -/
inductive ReadOutcome where
  | ok (v : Envelope)
  | thrown (msg : String)
  deriving Repr, DecidableEq

/-- The template expression (schema || "default") used in messages. -/
def orDefault (schema : Option String) : String :=
  match schema with
  | none => "default"
  | some s => if s == "" then "default" else s

/-- The responseText branch chain of executeWriteQuery in
src/db/index.ts, keyed by the classified statement kinds. -/
def writeResponseText (queryTypes : List String) (schema : Option String) (db : Db) : String :=
  let isUpdateOperation := queryTypes.contains ("update")
  let isInsertOperation := queryTypes.contains ("insert")
  let isDeleteOperation := queryTypes.contains ("delete")
  let isDDLOperation :=
    queryTypes.any (fun t => (["create", "alter", "drop", "truncate"]).contains t)
  if isInsertOperation then
    "Insert successful on schema " ++ squote ++ orDefault schema ++ squote ++
      ". Affected rows: " ++ toString db.affectedRows ++
      ", Last insert ID: " ++ toString db.insertId
  else if isUpdateOperation then
    "Update successful on schema " ++ squote ++ orDefault schema ++ squote ++
      ". Affected rows: " ++ toString db.affectedRows ++
      ", Changed rows: " ++ toString db.changedRows
  else if isDeleteOperation then
    "Delete successful on schema " ++ squote ++ orDefault schema ++ squote ++
      ". Affected rows: " ++ toString db.affectedRows
  else if isDDLOperation then
    "DDL operation successful on schema " ++ squote ++ orDefault schema ++ squote ++ "."
  else
    db.rowsJson

/-- The timing content item added to success envelopes (the toFixed
rendering of the float is abstracted to the decimal of the duration). -/
def timingItem (duration : Nat) : ContentItem :=
  { type := "text", text := "Query execution time: " ++ toString duration ++ " ms" }

/-- src/db/index.ts executeWriteQuery: acquire a connection, begin a
transaction, execute; on success commit, re-classify for the summary and
return a success envelope with the summary and the timing item; on
execution error roll back and return an error envelope; the connection is
released in the finally block.  performance.now() is read immediately
before and after the single connection.query(sql) call. -/
def executeWriteQuery (e : Env) (astify : String → Except String AstOrArray)
    (db : Db) (sql : String) : List Ev × Envelope :=
  let schema := extractSchemaFromQuery e sql
  let startTime := db.t0 + db.getPoolDur + db.acquireDur + db.beginDur
  if db.execOk then
    let endTime := startTime + db.execDur
    let duration := endTime - startTime
    match getQueryTypes astify sql with
    | .error msg =>
      ([Ev.getPool, Ev.acquire, Ev.beginTx, Ev.execQuery, Ev.commitTx, Ev.rollbackTx,
        Ev.release],
       { content := [{ type := "text", text := "Error executing write operation: " ++ msg }],
         isError := true })
    | .ok queryTypes =>
      ([Ev.getPool, Ev.acquire, Ev.beginTx, Ev.execQuery, Ev.commitTx, Ev.release],
       { content := [{ type := "text", text := writeResponseText queryTypes schema db },
                     timingItem duration],
         isError := false })
  else
    ([Ev.getPool, Ev.acquire, Ev.beginTx, Ev.execQuery, Ev.rollbackTx, Ev.release],
     { content := [{ type := "text",
                     text := "Error executing write operation: " ++ db.errMsg }],
       isError := true })

/-- The permission-denial envelope of executeReadOnlyQuery, naming the
operation, the resolved schema and the setting to change. -/
def denyEnvelope (opName settingName : String) (schema : Option String) : Envelope :=
  { content := [{ type := "text"
                  text := "Error: " ++ opName ++ " operations are not allowed for schema " ++
                    squote ++ orDefault schema ++ squote ++
                    ". Ask the administrator to update " ++ settingName ++ "." }],
    isError := true }

/-- src/db/index.ts executeReadOnlyQuery: classify (a parse failure is
re-thrown before anything else happens), resolve the schema, run the four
permission gates in order, route allowed write batches to
executeWriteQuery, and otherwise run the read-only path: set the session
read-only (unless disabled), begin, execute, always roll back, restore
the session (unless disabled), release; an execution error is rolled back
in the inner catch, rolled back again with session restore in the outer
catch, and re-thrown. -/
def executeReadOnlyQuery (e : Env) (astify : String → Except String AstOrArray)
    (db : Db) (sql : String) : List Ev × ReadOutcome :=
  match getQueryTypes astify sql with
  | .error msg => ([], .thrown msg)
  | .ok queryTypes =>
    let schema := extractSchemaFromQuery e sql
    let isUpdateOperation := queryTypes.contains ("update")
    let isInsertOperation := queryTypes.contains ("insert")
    let isDeleteOperation := queryTypes.contains ("delete")
    let isDDLOperation :=
      queryTypes.any (fun t => (["create", "alter", "drop", "truncate"]).contains t)
    if isInsertOperation && !(isInsertAllowedForSchema e schema) then
      ([], .ok (denyEnvelope ("INSERT") ("SCHEMA_INSERT_PERMISSIONS") schema))
    else if isUpdateOperation && !(isUpdateAllowedForSchema e schema) then
      ([], .ok (denyEnvelope ("UPDATE") ("SCHEMA_UPDATE_PERMISSIONS") schema))
    else if isDeleteOperation && !(isDeleteAllowedForSchema e schema) then
      ([], .ok (denyEnvelope ("DELETE") ("SCHEMA_DELETE_PERMISSIONS") schema))
    else if isDDLOperation && !(isDDLAllowedForSchema e schema) then
      ([], .ok (denyEnvelope ("DDL") ("SCHEMA_DDL_PERMISSIONS") schema))
    else if (isInsertOperation && isInsertAllowedForSchema e schema) ||
        (isUpdateOperation && isUpdateAllowedForSchema e schema) ||
        (isDeleteOperation && isDeleteAllowedForSchema e schema) ||
        (isDDLOperation && isDDLAllowedForSchema e schema) then
      let r := executeWriteQuery e astify db sql
      (r.1, .ok r.2)
    else
      let disable := MYSQL_DISABLE_READ_ONLY_TRANSACTIONS e
      let pre := [Ev.getPool, Ev.acquire] ++ (if disable then [] else [Ev.setReadOnly]) ++
        [Ev.beginTx]
      let startTime := db.t0 + db.getPoolDur + db.acquireDur +
        (if disable then 0 else db.setReadOnlyDur) + db.beginDur
      if db.execOk then
        let duration := (startTime + db.execDur) - startTime
        (pre ++ [Ev.execQuery, Ev.rollbackTx] ++
           (if disable then [] else [Ev.setReadWrite]) ++ [Ev.release],
         .ok { content := [{ type := "text", text := db.rowsJson }, timingItem duration],
               isError := false })
      else
        (pre ++ [Ev.execQuery, Ev.rollbackTx, Ev.rollbackTx] ++
           (if disable then [] else [Ev.setReadWrite]) ++ [Ev.release],
         .thrown db.errMsg)

/-- An environment with every variable unset (all defaults). -/
def envDefault : Env :=
  { mysqlDb := none, connStringDb := none, multiDbWriteMode := none,
    allowInsert := none, allowUpdate := none, allowDelete := none, allowDdl := none,
    schemaInsertPerms := none, schemaUpdatePerms := none, schemaDeletePerms := none,
    schemaDdlPerms := none, disableReadOnlyTx := none }

/-- Schema resolution as worded by the specification: configured default
when single-DB, else the USE pattern, else the first qualified reference,
else the (possibly null) default. -/
def extractSchemaSpec (e : Env) (sql : String) : Option String :=
  match orNull e.mysqlDb, isMultiDbMode e with
  | some d, false => some d
  | dflt, _ =>
    match useMatch sql, dbTableMatch sql with
    | some u, _ => some u
    | none, some q => some q
    | none, none => dflt

/-- Environment whose insert override map binds the empty schema name
(the name part of the pair is a space, which trims to the empty
string). -/
def c1CexEnv : Env := { envDefault with schemaInsertPerms := some (" :true") }

/-- Environment granting insert on schema dev only through the override
map. -/
def c1WitEnv : Env := { envDefault with schemaInsertPerms := some ("dev:true") }

/-- The condition of the module-level guard of src/db/index.ts; when it
holds the body of the guard only writes a log line and modifies no
permission flag. -/
def multiDbReadOnlyGuardFires (e : Env) : Bool :=
  isMultiDbMode e && !(e.multiDbWriteMode == some ("true"))

/-- Environment in multi-DB mode (no database configured), with
MULTI_DB_WRITE_MODE unset and all four global write flags enabled. -/
def c3Env : Env :=
  { envDefault with
      allowInsert := some ("true"), allowUpdate := some ("true"),
      allowDelete := some ("true"), allowDdl := some ("true") }

/-- A batch requires a write or DDL category that is denied for the
resolved schema. -/
def deniedCategory (e : Env) (queryTypes : List String) (schema : Option String) : Bool :=
  (queryTypes.contains ("insert") && !(isInsertAllowedForSchema e schema)) ||
  (queryTypes.contains ("update") && !(isUpdateAllowedForSchema e schema)) ||
  (queryTypes.contains ("delete") && !(isDeleteAllowedForSchema e schema)) ||
  (queryTypes.any (fun t => (["create", "alter", "drop", "truncate"]).contains t) &&
    !(isDDLAllowedForSchema e schema))

/-- A batch contains at least one write or DDL statement kind. -/
def hasWriteCategory (queryTypes : List String) : Bool :=
  queryTypes.contains ("insert") || queryTypes.contains ("update") ||
  queryTypes.contains ("delete") ||
  queryTypes.any (fun t => (["create", "alter", "drop", "truncate"]).contains t)

/-- Expected event trace of a successful pure-read execution. -/
def readTraceOk (disable : Bool) : List Ev :=
  [Ev.getPool, Ev.acquire] ++ (if disable then [] else [Ev.setReadOnly]) ++
  [Ev.beginTx, Ev.execQuery, Ev.rollbackTx] ++
  (if disable then [] else [Ev.setReadWrite]) ++ [Ev.release]

/-- Expected event trace of a failing pure-read execution (the inner and
the outer catch both roll back). -/
def readTraceErr (disable : Bool) : List Ev :=
  [Ev.getPool, Ev.acquire] ++ (if disable then [] else [Ev.setReadOnly]) ++
  [Ev.beginTx, Ev.execQuery, Ev.rollbackTx, Ev.rollbackTx] ++
  (if disable then [] else [Ev.setReadWrite]) ++ [Ev.release]

/-- The well-formed pairs of an override string, in source order: one
entry per comma-separated pair whose name part and value part are both
non-empty, carrying the trimmed name and the boolean of the trimmed
value.  This follows the wording of the claim and is compared against
parseSchemaPermissions. -/
def wellFormedPairs (s : String) : List (String × Bool) :=
  (splitOnChar (Char.ofNat 44) s.data).filterMap
    (fun pair =>
      match splitOnChar (Char.ofNat 58) pair with
      | schema :: value :: _ =>
        if !(schema.isEmpty) && !(value.isEmpty) then
          some (String.mk (trimJS schema), trimJS value == ("true").data)
        else none
      | _ => none)

/-- The value of the last pair with the given key, if any. -/
def lastVal (l : List (String × Bool)) (k : String) : Option Bool :=
  match l with
  | [] => none
  | (k0, v) :: rest =>
    match lastVal rest k with
    | some b => some b
    | none => if k0 = k then some v else none

/-- Environment of the witnesses: a single configured database named
app, every permission setting left at its default. -/
def witEnv : Env := { envDefault with mysqlDb := some ("app") }

/-- Connection oracle of the witnesses: a successful execution taking 4
clock units, with arbitrary non-zero durations for the other awaited
calls. -/
def witDb : Db :=
  { t0 := 5, getPoolDur := 7, acquireDur := 11, setReadOnlyDur := 2, beginDur := 3,
    execDur := 4, execOk := true, errMsg := "boom", affectedRows := 2, insertId := 9,
    changedRows := 1, rowsJson := "[]" }

/-- Parser oracle returning a two-statement batch: a select followed by
an insert (mixed-case type tags, as the external parser may produce). -/
def astifySelectInsert : String → Except String AstOrArray :=
  fun _ => .ok (.array [{ type := some ("select") }, { type := some ("INSERT") }])

/-- Parser oracle returning a single select statement. -/
def astifySelect : String → Except String AstOrArray :=
  fun _ => .ok (.single { type := some ("SELECT") })

/-- Parser oracle returning a single insert statement. -/
def astifyInsert : String → Except String AstOrArray :=
  fun _ => .ok (.array [{ type := some ("INSERT") }])

example : parseSchemaPermissions (some ("dev:true,prod:false")) =
    [("dev", true), ("prod", false)] := by decide

example : parseSchemaPermissions (some ("a:true,a:false")) = [("a", false)] := by decide

example : parseSchemaPermissions (some (" :true")) = [("", true)] := by decide

example : parseSchemaPermissions (some ("x,:true,y:")) = [] := by decide

example : useMatch ("USE dev; SELECT 1") = some ("dev") := by decide

example : useMatch ("select 2") = none := by decide

example : dbTableMatch ("SELECT a.col FROM t AS a") = some ("a") := by decide

example : dbTableMatch ("SELECT * FROM dev.users") = some ("dev") := by decide

example : dbTableMatch ("SELECT 1") = none := by decide

example :
    extractSchemaFromQuery
      { mysqlDb := some ("shop"), connStringDb := none, multiDbWriteMode := none,
        allowInsert := none, allowUpdate := none, allowDelete := none, allowDdl := none,
        schemaInsertPerms := none, schemaUpdatePerms := none, schemaDeletePerms := none,
        schemaDdlPerms := none, disableReadOnlyTx := none }
      ("SELECT * FROM other.table2") = some ("shop") := by decide

example :
    extractSchemaFromQuery
      { mysqlDb := none, connStringDb := none, multiDbWriteMode := none,
        allowInsert := none, allowUpdate := none, allowDelete := none, allowDdl := none,
        schemaInsertPerms := none, schemaUpdatePerms := none, schemaDeletePerms := none,
        schemaDdlPerms := none, disableReadOnlyTx := none }
      ("SELECT * FROM dev.users") = some ("dev") := by decide

/-- C6: extractSchemaFromQuery resolves the schema in the fixed order of
the specification: (1) the configured default for every input when a
default database is configured and multi-DB mode is off; (2) else the
schema captured by the USE pattern; (3) else the first captured
qualified-reference schema; (4) else the configured default, possibly
null.  The notion of containing a USE statement or a qualified reference
is the one the code implements, namely the two regular expressions. -/
theorem c6_extraction_order (e : Env) (sql : String) :
    extractSchemaFromQuery e sql = extractSchemaSpec e sql := by
  unfold extractSchemaFromQuery extractSchemaSpec
  rcases h1 : orNull e.mysqlDb with _ | d <;> rcases h2 : isMultiDbMode e <;>
    simp [h1, h2] <;> rcases useMatch sql with _ | u <;>
    rcases dbTableMatch sql with _ | q <;> simp

/-- C10: when no default database applies, the schema the code extracts
(and then feeds to the permission gates) is whatever identifier stands
before the first dotted pair anywhere in the text, with no distinction
between a database qualifier and any other dotted token: on the pure-read
input SELECT a.col FROM t AS a the extracted value is the column
qualifier a. -/
theorem c10_alias_mis_extraction :
    (∀ (e : Env) (sql : String), orNull e.mysqlDb = none → useMatch sql = none →
        extractSchemaFromQuery e sql = dbTableMatch sql) ∧
    useMatch ("SELECT a.col FROM t AS a") = none ∧
    dbTableMatch ("SELECT a.col FROM t AS a") = some ("a") ∧
    extractSchemaFromQuery envDefault ("SELECT a.col FROM t AS a") = some ("a") := by
  refine ⟨?_, by decide, by decide, by decide⟩
  intro e sql h1 h2
  unfold extractSchemaFromQuery
  simp [h1, h2]
  rcases dbTableMatch sql with _ | q <;> simp

/-- C10 witness: the general part of c10_alias_mis_extraction applied to
the concrete multi-DB environment and the alias query. -/
theorem c10_witness :
    extractSchemaFromQuery envDefault ("SELECT a.col FROM t AS a") =
      dbTableMatch ("SELECT a.col FROM t AS a") :=
  c10_alias_mis_extraction.1 envDefault ("SELECT a.col FROM t AS a")
    (by decide) (by decide)

/-- C1 counterexample: two non-null schema names violate the claim.
The empty string is present in the insert override map with value true
(the name part of the pair is a space, which trims to the empty string),
yet the check returns the global flag false, because the code tests JS
falsiness of the schema before consulting the map.  And toString is
absent from the (empty) override map, yet the check returns true — the
JS in-operator finds the inherited Object.prototype.toString, a truthy
function — instead of the global flag false. -/
theorem c1_empty_schema_counterexample :
    (objGet (SCHEMA_INSERT_PERMISSIONS c1CexEnv) ("") = some true ∧
      ALLOW_INSERT_OPERATION c1CexEnv = false ∧
      isInsertAllowedForSchema c1CexEnv (some ("")) = false) ∧
    (objGet (SCHEMA_INSERT_PERMISSIONS envDefault) ("toString") = none ∧
      ALLOW_INSERT_OPERATION envDefault = false ∧
      isInsertAllowedForSchema envDefault (some ("toString")) = true) := by decide

/-- C1 amended: for every non-null, non-empty schema name that is not
one of the Object.prototype member names, the override map wins when the
schema is one of its keys and the global flag applies otherwise, for
each of the four categories; a null or empty schema always yields the
global flag.  (For an Object.prototype member name absent from the map
the check returns the truthy inherited member instead of the global
flag; see the counterexample.) -/
theorem c1_override_lookup_amended (e : Env) (s : String) (h : s ≠ "")
    (hp : protoKeys.contains s = false) :
    ((∀ b, objGet (SCHEMA_INSERT_PERMISSIONS e) s = some b →
        isInsertAllowedForSchema e (some s) = b) ∧
      (objGet (SCHEMA_INSERT_PERMISSIONS e) s = none →
        isInsertAllowedForSchema e (some s) = ALLOW_INSERT_OPERATION e) ∧
      isInsertAllowedForSchema e none = ALLOW_INSERT_OPERATION e ∧
      isInsertAllowedForSchema e (some ("")) = ALLOW_INSERT_OPERATION e) ∧
    ((∀ b, objGet (SCHEMA_UPDATE_PERMISSIONS e) s = some b →
        isUpdateAllowedForSchema e (some s) = b) ∧
      (objGet (SCHEMA_UPDATE_PERMISSIONS e) s = none →
        isUpdateAllowedForSchema e (some s) = ALLOW_UPDATE_OPERATION e) ∧
      isUpdateAllowedForSchema e none = ALLOW_UPDATE_OPERATION e ∧
      isUpdateAllowedForSchema e (some ("")) = ALLOW_UPDATE_OPERATION e) ∧
    ((∀ b, objGet (SCHEMA_DELETE_PERMISSIONS e) s = some b →
        isDeleteAllowedForSchema e (some s) = b) ∧
      (objGet (SCHEMA_DELETE_PERMISSIONS e) s = none →
        isDeleteAllowedForSchema e (some s) = ALLOW_DELETE_OPERATION e) ∧
      isDeleteAllowedForSchema e none = ALLOW_DELETE_OPERATION e ∧
      isDeleteAllowedForSchema e (some ("")) = ALLOW_DELETE_OPERATION e) ∧
    ((∀ b, objGet (SCHEMA_DDL_PERMISSIONS e) s = some b →
        isDDLAllowedForSchema e (some s) = b) ∧
      (objGet (SCHEMA_DDL_PERMISSIONS e) s = none →
        isDDLAllowedForSchema e (some s) = ALLOW_DDL_OPERATION e) ∧
      isDDLAllowedForSchema e none = ALLOW_DDL_OPERATION e ∧
      isDDLAllowedForSchema e (some ("")) = ALLOW_DDL_OPERATION e) := by
  have hs : (s == "") = false := by simp [h]
  have hpm : s ∉ protoKeys := by simpa using hp
  refine ⟨⟨?_, ?_, ?_, ?_⟩, ⟨?_, ?_, ?_, ?_⟩, ⟨?_, ?_, ?_, ?_⟩, ⟨?_, ?_, ?_, ?_⟩⟩ <;>
    first
      | (intro b hb
         simp [isInsertAllowedForSchema, isUpdateAllowedForSchema,
           isDeleteAllowedForSchema, isDDLAllowedForSchema,
           objHas, objIndexTruthy, hs, hb, hp, hpm])
      | (intro hb
         simp [isInsertAllowedForSchema, isUpdateAllowedForSchema,
           isDeleteAllowedForSchema, isDDLAllowedForSchema,
           objHas, objIndexTruthy, hs, hb, hp, hpm])
      | simp [isInsertAllowedForSchema, isUpdateAllowedForSchema,
          isDeleteAllowedForSchema, isDDLAllowedForSchema, hs]

/-- C1 witness: the amended theorem applied to a concrete environment in
which dev is present in the insert override map with value true. -/
theorem c1_override_lookup_amended_witness :
    isInsertAllowedForSchema c1WitEnv (some ("dev")) = true :=
  (c1_override_lookup_amended c1WitEnv ("dev") (by decide) (by decide)).1.1 true (by decide)

/-- C3:  the multi-DB read-only guard fires for this environment, yet all
four effective global flags remain true and every write category stays
allowed for a schema absent from the override maps — the guard only logs
and never folds read-only mode into the flags, contradicting the claim,
the code comment (Force read-only mode in multi-DB mode), its log message
and the README. -/
theorem c3_guard_only_logs :
    multiDbReadOnlyGuardFires c3Env = true ∧
    ALLOW_INSERT_OPERATION c3Env = true ∧
    ALLOW_UPDATE_OPERATION c3Env = true ∧
    ALLOW_DELETE_OPERATION c3Env = true ∧
    ALLOW_DDL_OPERATION c3Env = true ∧
    isInsertAllowedForSchema c3Env (some ("dev")) = true ∧
    isUpdateAllowedForSchema c3Env (some ("dev")) = true ∧
    isDeleteAllowedForSchema c3Env (some ("dev")) = true ∧
    isDDLAllowedForSchema c3Env (some ("dev")) = true := by decide

/-- C2 amended: when the classified kinds of a parsed batch include a
write or DDL category for which the permission check of the code returns
false for the extracted schema, executeReadOnlyQuery returns the denial
envelope of one of the four categories — whose text names the schema and
the SCHEMA_*_PERMISSIONS setting to change and whose isError flag is set
— with an empty event trace, so no pool or connection call happens
before the envelope is returned; the hypothesis places no constraint on
the other statement kinds of the batch, so a batch mixing read-only
statements with a check-denied category is denied whole.  Denial here is
the verdict of the permission check, not of the specified policy: the
check treats an Object.prototype member name absent from the override
map as allowed (see the counterexample). -/
theorem c2_denied_batch_short_circuits (e : Env)
    (astify : String → Except String AstOrArray) (db : Db) (sql : String)
    (queryTypes : List String)
    (hparse : getQueryTypes astify sql = .ok queryTypes)
    (hden : deniedCategory e queryTypes (extractSchemaFromQuery e sql) = true) :
    ∃ opName settingName,
      ((opName, settingName) = (("INSERT"), ("SCHEMA_INSERT_PERMISSIONS")) ∨
        (opName, settingName) = (("UPDATE"), ("SCHEMA_UPDATE_PERMISSIONS")) ∨
        (opName, settingName) = (("DELETE"), ("SCHEMA_DELETE_PERMISSIONS")) ∨
        (opName, settingName) = (("DDL"), ("SCHEMA_DDL_PERMISSIONS"))) ∧
      (denyEnvelope opName settingName (extractSchemaFromQuery e sql)).isError = true ∧
      executeReadOnlyQuery e astify db sql =
        ([], .ok (denyEnvelope opName settingName (extractSchemaFromQuery e sql))) := by
  unfold deniedCategory at hden
  simp only [Bool.or_eq_true] at hden
  by_cases h1 : (queryTypes.contains ("insert") &&
      !(isInsertAllowedForSchema e (extractSchemaFromQuery e sql))) = true
  · exact ⟨_, _, Or.inl rfl, rfl, by
      simp only [executeReadOnlyQuery, hparse]
      rw [if_pos h1]⟩
  · by_cases h2 : (queryTypes.contains ("update") &&
        !(isUpdateAllowedForSchema e (extractSchemaFromQuery e sql))) = true
    · exact ⟨_, _, Or.inr (Or.inl rfl), rfl, by
        simp only [executeReadOnlyQuery, hparse]
        rw [if_neg h1, if_pos h2]⟩
    · by_cases h3 : (queryTypes.contains ("delete") &&
          !(isDeleteAllowedForSchema e (extractSchemaFromQuery e sql))) = true
      · exact ⟨_, _, Or.inr (Or.inr (Or.inl rfl)), rfl, by
          simp only [executeReadOnlyQuery, hparse]
          rw [if_neg h1, if_neg h2, if_pos h3]⟩
      · have h4 : (queryTypes.any
            (fun t => (["create", "alter", "drop", "truncate"]).contains t) &&
            !(isDDLAllowedForSchema e (extractSchemaFromQuery e sql))) = true := by
          rcases hden with ((h | h) | h) | h
          · exact absurd h h1
          · exact absurd h h2
          · exact absurd h h3
          · exact h
        exact ⟨_, _, Or.inr (Or.inr (Or.inr rfl)), rfl, by
          simp only [executeReadOnlyQuery, hparse]
          rw [if_neg h1, if_neg h2, if_neg h3, if_pos h4]⟩

/-- C2 counterexample: in multi-DB mode with an all-default environment
the batch INSERT INTO toString.t VALUES (1) extracts the schema name
toString; the specified policy denies the insert (the schema is absent
from the override map and the global flag is false), so the claim
asserts an error envelope with no connection acquired — but the code
finds the truthy inherited Object.prototype.toString through the JS
in-operator, treats the insert as allowed, routes the batch to
executeWriteQuery, acquires a pool connection and returns a success
envelope. -/
theorem c2_proto_schema_counterexample :
    extractSchemaFromQuery envDefault ("INSERT INTO toString.t VALUES (1)") =
      some ("toString") ∧
    isAllowedPolicy (ALLOW_INSERT_OPERATION envDefault)
      (SCHEMA_INSERT_PERMISSIONS envDefault)
      (extractSchemaFromQuery envDefault ("INSERT INTO toString.t VALUES (1)")) = false ∧
    getQueryTypes astifyInsert ("INSERT INTO toString.t VALUES (1)") = .ok (["insert"]) ∧
    Ev.acquire ∈
      (executeReadOnlyQuery envDefault astifyInsert witDb
        ("INSERT INTO toString.t VALUES (1)")).1 ∧
    (executeReadOnlyQuery envDefault astifyInsert witDb
        ("INSERT INTO toString.t VALUES (1)")).2 =
      .ok (executeWriteQuery envDefault astifyInsert witDb
        ("INSERT INTO toString.t VALUES (1)")).2 ∧
    (executeWriteQuery envDefault astifyInsert witDb
        ("INSERT INTO toString.t VALUES (1)")).2.isError = false :=
  ⟨by decide, by decide, by rfl, by decide, by decide, by decide⟩

/-- C4: a parsed batch with no write or DDL kind takes the read path:
the session is set read-only immediately before the transaction begins
unless disabled by configuration; on success the transaction is rolled
back, never committed, the session is restored (unless disabled), the
connection is released exactly once and a success envelope carrying the
serialized rows is returned; on execution error the transaction is
rolled back, the connection is released exactly once and the error is
re-thrown instead of being converted to an envelope. -/
theorem c4_read_path_discipline (e : Env)
    (astify : String → Except String AstOrArray) (db : Db) (sql : String)
    (queryTypes : List String)
    (hparse : getQueryTypes astify sql = .ok queryTypes)
    (hpure : hasWriteCategory queryTypes = false) :
    (db.execOk = true →
      executeReadOnlyQuery e astify db sql =
        (readTraceOk (MYSQL_DISABLE_READ_ONLY_TRANSACTIONS e),
         .ok { content := [{ type := "text", text := db.rowsJson },
                           timingItem db.execDur],
               isError := false })) ∧
    (db.execOk = false →
      executeReadOnlyQuery e astify db sql =
        (readTraceErr (MYSQL_DISABLE_READ_ONLY_TRANSACTIONS e), .thrown db.errMsg)) ∧
    Ev.commitTx ∉ (executeReadOnlyQuery e astify db sql).1 ∧
    (executeReadOnlyQuery e astify db sql).1.count Ev.release = 1 ∧
    Ev.rollbackTx ∈ (executeReadOnlyQuery e astify db sql).1 := by
  unfold hasWriteCategory at hpure
  simp only [Bool.or_eq_false_iff] at hpure
  obtain ⟨⟨⟨h1, h2⟩, h3⟩, h4⟩ := hpure
  have n1 : ¬((queryTypes.contains ("insert") &&
      !(isInsertAllowedForSchema e (extractSchemaFromQuery e sql))) = true) := by
    rw [h1]; simp
  have n2 : ¬((queryTypes.contains ("update") &&
      !(isUpdateAllowedForSchema e (extractSchemaFromQuery e sql))) = true) := by
    rw [h2]; simp
  have n3 : ¬((queryTypes.contains ("delete") &&
      !(isDeleteAllowedForSchema e (extractSchemaFromQuery e sql))) = true) := by
    rw [h3]; simp
  have n4 : ¬((queryTypes.any
      (fun t => (["create", "alter", "drop", "truncate"]).contains t) &&
      !(isDDLAllowedForSchema e (extractSchemaFromQuery e sql))) = true) := by
    rw [h4]; simp
  have n5 : ¬(((queryTypes.contains ("insert") &&
        isInsertAllowedForSchema e (extractSchemaFromQuery e sql)) ||
      (queryTypes.contains ("update") &&
        isUpdateAllowedForSchema e (extractSchemaFromQuery e sql)) ||
      (queryTypes.contains ("delete") &&
        isDeleteAllowedForSchema e (extractSchemaFromQuery e sql)) ||
      (queryTypes.any (fun t => (["create", "alter", "drop", "truncate"]).contains t) &&
        isDDLAllowedForSchema e (extractSchemaFromQuery e sql))) = true) := by
    rw [h1, h2, h3, h4]; simp
  by_cases hex : db.execOk = true
  · have hrun : executeReadOnlyQuery e astify db sql =
        (readTraceOk (MYSQL_DISABLE_READ_ONLY_TRANSACTIONS e),
         .ok { content := [{ type := "text", text := db.rowsJson },
                           timingItem db.execDur],
               isError := false }) := by
      simp only [executeReadOnlyQuery, hparse]
      rw [if_neg n1, if_neg n2, if_neg n3, if_neg n4, if_neg n5, if_pos hex]
      simp [readTraceOk, timingItem, Nat.add_sub_cancel_left]
    refine ⟨fun _ => hrun, fun hc => absurd (hex.symm.trans hc) (by decide),
      ?_, ?_, ?_⟩ <;>
      rw [hrun] <;>
      by_cases hd : MYSQL_DISABLE_READ_ONLY_TRANSACTIONS e = true <;>
      simp [readTraceOk, hd]
  · have hrun : executeReadOnlyQuery e astify db sql =
        (readTraceErr (MYSQL_DISABLE_READ_ONLY_TRANSACTIONS e), .thrown db.errMsg) := by
      simp only [executeReadOnlyQuery, hparse]
      rw [if_neg n1, if_neg n2, if_neg n3, if_neg n4, if_neg n5, if_neg hex]
      simp [readTraceErr]
    refine ⟨fun hc => absurd hc hex, fun _ => hrun, ?_, ?_, ?_⟩ <;>
      rw [hrun] <;>
      by_cases hd : MYSQL_DISABLE_READ_ONLY_TRANSACTIONS e = true <;>
      simp [readTraceErr, hd]

/-- C5: executeWriteQuery on a parsed batch: on execution success there
is exactly one commit and no rollback and the returned envelope is a
success envelope whose first item is the operation-specific summary
(insert: affected rows and last insert id; else update: affected and
changed rows; else delete: affected rows; else DDL: a generic
acknowledgment); on execution failure there is exactly one rollback and
no commit and an error envelope is returned instead of an exception; the
connection is released exactly once in both cases. -/
theorem c5_write_path_discipline (e : Env)
    (astify : String → Except String AstOrArray) (db : Db) (sql : String)
    (queryTypes : List String)
    (hparse : getQueryTypes astify sql = .ok queryTypes) :
    (db.execOk = true →
      executeWriteQuery e astify db sql =
        ([Ev.getPool, Ev.acquire, Ev.beginTx, Ev.execQuery, Ev.commitTx, Ev.release],
         { content := [{ type := "text",
                         text := writeResponseText queryTypes
                           (extractSchemaFromQuery e sql) db },
                       timingItem db.execDur],
           isError := false })) ∧
    (db.execOk = false →
      executeWriteQuery e astify db sql =
        ([Ev.getPool, Ev.acquire, Ev.beginTx, Ev.execQuery, Ev.rollbackTx, Ev.release],
         { content := [{ type := "text",
                         text := "Error executing write operation: " ++ db.errMsg }],
           isError := true })) ∧
    (executeWriteQuery e astify db sql).1.count Ev.commitTx =
      (if db.execOk then 1 else 0) ∧
    (executeWriteQuery e astify db sql).1.count Ev.rollbackTx =
      (if db.execOk then 0 else 1) ∧
    (executeWriteQuery e astify db sql).1.count Ev.release = 1 ∧
    (queryTypes.contains ("insert") = true →
      writeResponseText queryTypes (extractSchemaFromQuery e sql) db =
        "Insert successful on schema " ++ squote ++
          orDefault (extractSchemaFromQuery e sql) ++ squote ++
          ". Affected rows: " ++ toString db.affectedRows ++
          ", Last insert ID: " ++ toString db.insertId) ∧
    (queryTypes.contains ("insert") = false → queryTypes.contains ("update") = true →
      writeResponseText queryTypes (extractSchemaFromQuery e sql) db =
        "Update successful on schema " ++ squote ++
          orDefault (extractSchemaFromQuery e sql) ++ squote ++
          ". Affected rows: " ++ toString db.affectedRows ++
          ", Changed rows: " ++ toString db.changedRows) ∧
    (queryTypes.contains ("insert") = false → queryTypes.contains ("update") = false →
      queryTypes.contains ("delete") = true →
      writeResponseText queryTypes (extractSchemaFromQuery e sql) db =
        "Delete successful on schema " ++ squote ++
          orDefault (extractSchemaFromQuery e sql) ++ squote ++
          ". Affected rows: " ++ toString db.affectedRows) ∧
    (queryTypes.contains ("insert") = false → queryTypes.contains ("update") = false →
      queryTypes.contains ("delete") = false →
      queryTypes.any (fun t => (["create", "alter", "drop", "truncate"]).contains t) = true →
      writeResponseText queryTypes (extractSchemaFromQuery e sql) db =
        "DDL operation successful on schema " ++ squote ++
          orDefault (extractSchemaFromQuery e sql) ++ squote ++ ".") := by
  have hsummary :
      (queryTypes.contains ("insert") = true →
        writeResponseText queryTypes (extractSchemaFromQuery e sql) db =
          "Insert successful on schema " ++ squote ++
            orDefault (extractSchemaFromQuery e sql) ++ squote ++
            ". Affected rows: " ++ toString db.affectedRows ++
            ", Last insert ID: " ++ toString db.insertId) ∧
      (queryTypes.contains ("insert") = false → queryTypes.contains ("update") = true →
        writeResponseText queryTypes (extractSchemaFromQuery e sql) db =
          "Update successful on schema " ++ squote ++
            orDefault (extractSchemaFromQuery e sql) ++ squote ++
            ". Affected rows: " ++ toString db.affectedRows ++
            ", Changed rows: " ++ toString db.changedRows) ∧
      (queryTypes.contains ("insert") = false → queryTypes.contains ("update") = false →
        queryTypes.contains ("delete") = true →
        writeResponseText queryTypes (extractSchemaFromQuery e sql) db =
          "Delete successful on schema " ++ squote ++
            orDefault (extractSchemaFromQuery e sql) ++ squote ++
            ". Affected rows: " ++ toString db.affectedRows) ∧
      (queryTypes.contains ("insert") = false → queryTypes.contains ("update") = false →
        queryTypes.contains ("delete") = false →
        queryTypes.any (fun t => (["create", "alter", "drop", "truncate"]).contains t) = true →
        writeResponseText queryTypes (extractSchemaFromQuery e sql) db =
          "DDL operation successful on schema " ++ squote ++
            orDefault (extractSchemaFromQuery e sql) ++ squote ++ ".") := by
    refine ⟨?_, ?_, ?_, ?_⟩
    · intro hi
      have him : ("insert") ∈ queryTypes := by simpa using hi
      simp [writeResponseText, him]
    · intro hi hu
      have hin : ("insert") ∉ queryTypes := by simpa using hi
      have hum : ("update") ∈ queryTypes := by simpa using hu
      simp [writeResponseText, hin, hum]
    · intro hi hu hd
      have hin : ("insert") ∉ queryTypes := by simpa using hi
      have hun : ("update") ∉ queryTypes := by simpa using hu
      have hdm : ("delete") ∈ queryTypes := by simpa using hd
      simp [writeResponseText, hin, hun, hdm]
    · intro hi hu hd hddl
      have hin : ("insert") ∉ queryTypes := by simpa using hi
      have hun : ("update") ∉ queryTypes := by simpa using hu
      have hdn : ("delete") ∉ queryTypes := by simpa using hd
      have hddlm : ∃ x ∈ queryTypes,
          x = ("create") ∨ x = ("alter") ∨ x = ("drop") ∨ x = ("truncate") := by
        simpa using hddl
      simp [writeResponseText, hin, hun, hdn, hddlm]
  by_cases hex : db.execOk = true
  · have hrun : executeWriteQuery e astify db sql =
        ([Ev.getPool, Ev.acquire, Ev.beginTx, Ev.execQuery, Ev.commitTx, Ev.release],
         { content := [{ type := "text",
                         text := writeResponseText queryTypes
                           (extractSchemaFromQuery e sql) db },
                       timingItem db.execDur],
           isError := false }) := by
      simp only [executeWriteQuery, hparse]
      rw [if_pos hex]
      simp [timingItem, Nat.add_sub_cancel_left]
    refine ⟨fun _ => hrun, fun hc => absurd (hex.symm.trans hc) (by decide),
      ?_, ?_, ?_, hsummary.1, hsummary.2.1, hsummary.2.2.1, hsummary.2.2.2⟩
    · rw [hrun, if_pos hex]; rfl
    · rw [hrun, if_pos hex]; rfl
    · rw [hrun]; rfl
  · have hrun : executeWriteQuery e astify db sql =
        ([Ev.getPool, Ev.acquire, Ev.beginTx, Ev.execQuery, Ev.rollbackTx, Ev.release],
         { content := [{ type := "text",
                         text := "Error executing write operation: " ++ db.errMsg }],
           isError := true }) := by
      simp only [executeWriteQuery]
      rw [if_neg hex]
    refine ⟨fun hc => absurd hc hex, fun _ => hrun,
      ?_, ?_, ?_, hsummary.1, hsummary.2.1, hsummary.2.2.1, hsummary.2.2.2⟩
    · rw [hrun, if_neg hex]; rfl
    · rw [hrun, if_neg hex]; rfl
    · rw [hrun]; rfl

/-- C8: every success envelope of the write path and of the read path
carries, as its second content item, the execution duration — and the
duration shown is exactly the clock advance of the single
connection.query(sql) call (db.execDur), while the oracle durations of
pool creation, connection acquisition, the read-only SET and the
transaction begin are arbitrary and never reach the envelope. -/
theorem c8_timing_around_exec_only (e : Env)
    (astify : String → Except String AstOrArray) (db : Db) (sql : String) :
    ((executeWriteQuery e astify db sql).2.isError = false →
      (executeWriteQuery e astify db sql).2.content.get? 1 =
        some (timingItem db.execDur)) ∧
    (∀ v, (executeReadOnlyQuery e astify db sql).2 = .ok v → v.isError = false →
      v.content.get? 1 = some (timingItem db.execDur)) := by
  have hw : (executeWriteQuery e astify db sql).2.isError = false →
      (executeWriteQuery e astify db sql).2.content.get? 1 =
        some (timingItem db.execDur) := by
    intro hF
    by_cases hex : db.execOk = true
    · cases hq : getQueryTypes astify sql with
      | error msg =>
        exfalso
        simp only [executeWriteQuery, hq] at hF
        rw [if_pos hex] at hF
        simp at hF
      | ok qts =>
        simp only [executeWriteQuery, hq]
        rw [if_pos hex]
        simp [timingItem, Nat.add_sub_cancel_left]
    · exfalso
      simp only [executeWriteQuery] at hF
      rw [if_neg hex] at hF
      simp at hF
  refine ⟨hw, ?_⟩
  intro v hv hErr
  cases hq : getQueryTypes astify sql with
  | error msg =>
    simp only [executeReadOnlyQuery, hq] at hv
    exact absurd hv (by simp)
  | ok qts =>
    simp only [executeReadOnlyQuery, hq] at hv
    by_cases c1 : (qts.contains ("insert") &&
        !(isInsertAllowedForSchema e (extractSchemaFromQuery e sql))) = true
    · rw [if_pos c1] at hv
      simp only [ReadOutcome.ok.injEq] at hv
      subst hv
      simp [denyEnvelope] at hErr
    · rw [if_neg c1] at hv
      by_cases c2 : (qts.contains ("update") &&
          !(isUpdateAllowedForSchema e (extractSchemaFromQuery e sql))) = true
      · rw [if_pos c2] at hv
        simp only [ReadOutcome.ok.injEq] at hv
        subst hv
        simp [denyEnvelope] at hErr
      · rw [if_neg c2] at hv
        by_cases c3 : (qts.contains ("delete") &&
            !(isDeleteAllowedForSchema e (extractSchemaFromQuery e sql))) = true
        · rw [if_pos c3] at hv
          simp only [ReadOutcome.ok.injEq] at hv
          subst hv
          simp [denyEnvelope] at hErr
        · rw [if_neg c3] at hv
          by_cases c4 : (qts.any
              (fun t => (["create", "alter", "drop", "truncate"]).contains t) &&
              !(isDDLAllowedForSchema e (extractSchemaFromQuery e sql))) = true
          · rw [if_pos c4] at hv
            simp only [ReadOutcome.ok.injEq] at hv
            subst hv
            simp [denyEnvelope] at hErr
          · rw [if_neg c4] at hv
            by_cases c5 : (((qts.contains ("insert") &&
                  isInsertAllowedForSchema e (extractSchemaFromQuery e sql)) ||
                (qts.contains ("update") &&
                  isUpdateAllowedForSchema e (extractSchemaFromQuery e sql)) ||
                (qts.contains ("delete") &&
                  isDeleteAllowedForSchema e (extractSchemaFromQuery e sql)) ||
                (qts.any (fun t => (["create", "alter", "drop", "truncate"]).contains t) &&
                  isDDLAllowedForSchema e (extractSchemaFromQuery e sql))) = true)
            · rw [if_pos c5] at hv
              simp only [ReadOutcome.ok.injEq] at hv
              subst hv
              exact hw hErr
            · rw [if_neg c5] at hv
              by_cases hex : db.execOk = true
              · rw [if_pos hex] at hv
                simp only [ReadOutcome.ok.injEq] at hv
                subst hv
                simp [timingItem, Nat.add_sub_cancel_left]
              · rw [if_neg hex] at hv
                exact absurd hv (by simp)

/-- C7: getQueryTypes yields one lower-cased statement kind per parsed
statement in source order, for both the single-AST and the
multi-statement array shape returned by the MySQL-dialect parser, and
fails with a Parsing-failed error when the parser cannot produce a
statement list; it is a pure function of the parser result. -/
theorem c7_classification (astify : String → Except String AstOrArray) (q : String) :
    (∀ stmts, astify q = .ok (.array stmts) →
      getQueryTypes astify q =
        .ok (stmts.map (fun stmt => (stmt.type.map toLowerJS).getD ("unknown"))) ∧
      ∀ ts, getQueryTypes astify q = .ok ts →
        ts.length = stmts.length ∧
        ∀ i (hi : i < ts.length) (hs : i < stmts.length),
          ts.get ⟨i, hi⟩ = ((stmts.get ⟨i, hs⟩).type.map toLowerJS).getD ("unknown")) ∧
    (∀ a, astify q = .ok (.single a) →
      getQueryTypes astify q = .ok [(a.type.map toLowerJS).getD ("unknown")]) ∧
    (∀ msg, astify q = .error msg →
      getQueryTypes astify q = .error ("Parsing failed: " ++ msg)) := by
  refine ⟨?_, ?_, ?_⟩
  · intro stmts hq
    have hmap : getQueryTypes astify q =
        .ok (stmts.map (fun stmt => (stmt.type.map toLowerJS).getD ("unknown"))) := by
      simp [getQueryTypes, hq, astToStatements]
    refine ⟨hmap, ?_⟩
    intro ts hts
    rw [hmap] at hts
    have hts2 : stmts.map (fun stmt => (stmt.type.map toLowerJS).getD ("unknown")) = ts := by
      simpa using hts
    subst hts2
    refine ⟨List.length_map _ _, ?_⟩
    intro i hi hs
    simp [List.getElem_map]
  · intro a hq
    simp [getQueryTypes, hq, astToStatements]
  · intro msg hq
    simp [getQueryTypes, hq]

/-- Lookup after a property assignment to a key other than the
prototype setter. -/
theorem objGet_objSet (m : List (String × Bool)) (k k2 : String) (v : Bool)
    (hk : k ≠ protoSetterKey) :
    objGet (objSet m k v) k2 = if k = k2 then some v else objGet m k2 := by
  induction m with
  | nil =>
    simp only [objSet]
    rw [if_neg hk]
    simp [objGet]
  | cons hd tl ih =>
    obtain ⟨k0, v0⟩ := hd
    simp only [objSet]
    by_cases h : k0 = k
    · subst h
      rw [if_pos rfl]
      by_cases h2 : k0 = k2 <;> simp [objGet, h2]
    · rw [if_neg h]
      simp only [objGet]
      by_cases h2 : k0 = k2
      · subst h2
        rw [if_pos rfl, if_neg (fun hh => h hh.symm)]
        simp [objGet]
      · rw [if_neg h2, ih]
        simp [h2]

/-- Assigning the prototype setter key to an object without that own
key is a no-op. -/
theorem objSet_proto_of_absent (m : List (String × Bool)) (v : Bool)
    (h : objGet m protoSetterKey = none) : objSet m protoSetterKey v = m := by
  induction m with
  | nil => simp [objSet]
  | cons hd tl ih =>
    obtain ⟨k0, v0⟩ := hd
    simp only [objGet] at h
    by_cases hk0 : k0 = protoSetterKey
    · rw [if_pos hk0] at h
      exact absurd h (by simp)
    · rw [if_neg hk0] at h
      simp only [objSet]
      rw [if_neg hk0, ih h]

/-- No assignment creates an own entry for the prototype setter key. -/
theorem objGet_proto_objSet (m : List (String × Bool)) (k : String) (v : Bool)
    (h : objGet m protoSetterKey = none) :
    objGet (objSet m k v) protoSetterKey = none := by
  by_cases hk : k = protoSetterKey
  · subst hk
    rw [objSet_proto_of_absent m v h]
    exact h
  · rw [objGet_objSet m k protoSetterKey v hk, if_neg hk]
    exact h

/-- Lookup of a non-prototype key through the assignment fold equals
last-pair-wins lookup, falling back to the accumulator. -/
theorem objGet_foldl (l : List (String × Bool)) (acc : List (String × Bool)) (k : String)
    (hk : k ≠ protoSetterKey) (hacc : objGet acc protoSetterKey = none) :
    objGet (l.foldl (fun m p => objSet m p.1 p.2) acc) k =
      (match lastVal l k with
       | some b => some b
       | none => objGet acc k) := by
  induction l generalizing acc with
  | nil => rfl
  | cons p rest ih =>
    obtain ⟨k0, v0⟩ := p
    simp only [List.foldl_cons, lastVal]
    by_cases hk0 : k0 = protoSetterKey
    · subst hk0
      rw [objSet_proto_of_absent acc v0 hacc, ih acc hacc]
      cases hl : lastVal rest k with
      | some b => simp
      | none =>
        simp only
        rw [if_neg (fun hh => hk hh.symm)]
    · rw [ih (objSet acc k0 v0) (objGet_proto_objSet acc k0 v0 hacc)]
      cases hl : lastVal rest k with
      | some b => simp
      | none =>
        simp only
        rw [objGet_objSet acc k0 k v0 hk0]
        by_cases h : k0 = k <;> simp [h]

/-- The assignment fold never creates an own entry for the prototype
setter key. -/
theorem objGet_foldl_proto (l : List (String × Bool)) (acc : List (String × Bool))
    (hacc : objGet acc protoSetterKey = none) :
    objGet (l.foldl (fun m p => objSet m p.1 p.2) acc) protoSetterKey = none := by
  induction l generalizing acc with
  | nil => exact hacc
  | cons p rest ih =>
    simp only [List.foldl_cons]
    exact ih _ (objGet_proto_objSet acc p.1 p.2 hacc)

/-- A key of the updated object is the assigned key or a key of the
original one. -/
theorem mem_keys_objSet (m : List (String × Bool)) (k : String) (v : Bool) (x : String) :
    x ∈ (objSet m k v).map Prod.fst → x = k ∨ x ∈ m.map Prod.fst := by
  induction m with
  | nil => by_cases hk : k = protoSetterKey <;> simp [objSet, hk]
  | cons hd tl ih =>
    obtain ⟨k0, v0⟩ := hd
    simp only [objSet]
    by_cases h : k0 = k
    · rw [if_pos h]
      simp only [List.map_cons, List.mem_cons]
      rintro (hx | hx)
      · exact Or.inl hx
      · exact Or.inr (Or.inr hx)
    · rw [if_neg h]
      simp only [List.map_cons, List.mem_cons]
      rintro (hx | hx)
      · exact Or.inr (Or.inl hx)
      · rcases ih hx with hx | hx
        · exact Or.inl hx
        · exact Or.inr (Or.inr hx)

/-- Property assignment preserves key uniqueness. -/
theorem nodup_keys_objSet (m : List (String × Bool)) (k : String) (v : Bool)
    (h : (m.map Prod.fst).Nodup) : ((objSet m k v).map Prod.fst).Nodup := by
  induction m with
  | nil => by_cases hk : k = protoSetterKey <;> simp [objSet, hk]
  | cons hd tl ih =>
    obtain ⟨k0, v0⟩ := hd
    simp only [List.map_cons, List.nodup_cons] at h
    obtain ⟨hk0, htl⟩ := h
    simp only [objSet]
    by_cases hk : k0 = k
    · subst hk
      rw [if_pos rfl]
      simp only [List.map_cons, List.nodup_cons]
      exact ⟨hk0, htl⟩
    · rw [if_neg hk]
      simp only [List.map_cons, List.nodup_cons]
      refine ⟨?_, ih htl⟩
      intro hmem
      rcases mem_keys_objSet tl k v k0 hmem with hx | hx
      · exact hk hx
      · exact hk0 hx

/-- The assignment fold preserves key uniqueness. -/
theorem nodup_keys_foldl (l : List (String × Bool)) (acc : List (String × Bool))
    (h : (acc.map Prod.fst).Nodup) :
    ((l.foldl (fun m p => objSet m p.1 p.2) acc).map Prod.fst).Nodup := by
  induction l generalizing acc with
  | nil => exact h
  | cons p rest ih =>
    simp only [List.foldl_cons]
    exact ih _ (nodup_keys_objSet _ _ _ h)

/-- The parse loop is the assignment fold over the well-formed pairs. -/
theorem parse_loop_eq_foldl (segs : List (List Char)) (acc : List (String × Bool)) :
    segs.foldl
      (fun permissions pair =>
        match splitOnChar (Char.ofNat 58) pair with
        | schema :: value :: _ =>
          if !(schema.isEmpty) && !(value.isEmpty) then
            objSet permissions (String.mk (trimJS schema)) (trimJS value == ("true").data)
          else permissions
        | _ => permissions) acc =
    (segs.filterMap
      (fun pair =>
        match splitOnChar (Char.ofNat 58) pair with
        | schema :: value :: _ =>
          if !(schema.isEmpty) && !(value.isEmpty) then
            some (String.mk (trimJS schema), trimJS value == ("true").data)
          else none
        | _ => none)).foldl (fun m p => objSet m p.1 p.2) acc := by
  induction segs generalizing acc with
  | nil => rfl
  | cons pair rest ih =>
    simp only [List.foldl_cons, List.filterMap_cons]
    cases hsp : splitOnChar (Char.ofNat 58) pair with
    | nil => simpa using ih acc
    | cons a tl =>
      cases tl with
      | nil => simpa using ih acc
      | cons b tl2 =>
        by_cases hcond : (!(a.isEmpty) && !(b.isEmpty)) = true
        · simp only [hcond, if_pos]
          simpa using ih (objSet acc (String.mk (trimJS a)) (trimJS b == ("true").data))
        · simp only [hcond]
          simpa [hcond] using ih acc

/-- C9 counterexample: the input a:true,a:false has two comma-separated
pairs whose name part and value part are both non-empty, yet the parsed
map holds exactly one entry (the later pair overwrote the earlier one),
so the map does not contain one entry per such pair. -/
theorem c9_duplicate_pair_counterexample :
    (wellFormedPairs ("a:true,a:false")).length = 2 ∧
    (parseSchemaPermissions (some ("a:true,a:false"))).length = 1 ∧
    parseSchemaPermissions (some ("a:true,a:false")) = [(("a"), false)] ∧
    (wellFormedPairs ("__proto__:true")).length = 1 ∧
    parseSchemaPermissions (some ("__proto__:true")) = [] := by decide

/-- C9 amended: for every non-empty input string the parsed map holds
exactly one entry per distinct trimmed name other than the prototype
setter name among the well-formed pairs (its keys are unique), each
bound to the boolean of the last well-formed pair carrying that name; a
well-formed pair whose trimmed name is the prototype setter name
contributes no entry, because the assignment hits the inherited
Object.prototype setter and is a no-op; pairs with an empty name or
value part contribute nothing, and an absent or empty input yields the
empty map. -/
theorem c9_last_pair_wins_amended (s : String) (n : String) (h : s ≠ "") :
    (n ≠ protoSetterKey →
      objGet (parseSchemaPermissions (some s)) n = lastVal (wellFormedPairs s) n) ∧
    objGet (parseSchemaPermissions (some s)) protoSetterKey = none ∧
    ((parseSchemaPermissions (some s)).map Prod.fst).Nodup ∧
    parseSchemaPermissions none = [] ∧
    parseSchemaPermissions (some ("")) = [] := by
  have hne : ¬((s == "") = true) := by simp [h]
  have hparse : parseSchemaPermissions (some s) =
      (wellFormedPairs s).foldl (fun m p => objSet m p.1 p.2) [] := by
    simp only [parseSchemaPermissions]
    rw [if_neg hne]
    exact parse_loop_eq_foldl _ []
  refine ⟨?_, ?_, ?_, rfl, rfl⟩
  · intro hn
    rw [hparse, objGet_foldl _ _ _ hn (by simp [objGet])]
    cases lastVal (wellFormedPairs s) n <;> simp [objGet]
  · rw [hparse]
    exact objGet_foldl_proto _ _ (by simp [objGet])
  · rw [hparse]
    exact nodup_keys_foldl _ _ (by simp)

/-- C9 witness: the amended theorem applied to a concrete string with a
duplicated name; the later duplicate wins. -/
theorem c9_last_pair_wins_amended_witness :
    objGet (parseSchemaPermissions (some ("dev:true,prod:false,dev:false"))) ("dev") =
      lastVal (wellFormedPairs ("dev:true,prod:false,dev:false")) ("dev") ∧
    lastVal (wellFormedPairs ("dev:true,prod:false,dev:false")) ("dev") = some false :=
  ⟨(c9_last_pair_wins_amended ("dev:true,prod:false,dev:false") ("dev") (by decide)).1
     (by decide),
   by decide⟩

/-- C2 witness: a batch mixing a select with an insert, executed with
insert denied (no flag set, schema app absent from every override map),
is denied whole with an empty trace. -/
theorem c2_witness :
    ∃ opName settingName,
      ((opName, settingName) = (("INSERT"), ("SCHEMA_INSERT_PERMISSIONS")) ∨
        (opName, settingName) = (("UPDATE"), ("SCHEMA_UPDATE_PERMISSIONS")) ∨
        (opName, settingName) = (("DELETE"), ("SCHEMA_DELETE_PERMISSIONS")) ∨
        (opName, settingName) = (("DDL"), ("SCHEMA_DDL_PERMISSIONS"))) ∧
      (denyEnvelope opName settingName
        (extractSchemaFromQuery witEnv ("SELECT 1; INSERT INTO t VALUES (1)"))).isError =
        true ∧
      executeReadOnlyQuery witEnv astifySelectInsert witDb
          ("SELECT 1; INSERT INTO t VALUES (1)") =
        ([], .ok (denyEnvelope opName settingName
          (extractSchemaFromQuery witEnv ("SELECT 1; INSERT INTO t VALUES (1)")))) :=
  c2_denied_batch_short_circuits witEnv astifySelectInsert witDb
    ("SELECT 1; INSERT INTO t VALUES (1)") (["select", "insert"]) (by rfl) (by decide)

/-- C4 witness: a pure select batch on the success oracle follows the
read-path discipline. -/
theorem c4_witness :
    executeReadOnlyQuery witEnv astifySelect witDb ("SELECT 1") =
      (readTraceOk (MYSQL_DISABLE_READ_ONLY_TRANSACTIONS witEnv),
       .ok { content := [{ type := "text", text := witDb.rowsJson },
                         timingItem witDb.execDur],
             isError := false }) :=
  (c4_read_path_discipline witEnv astifySelect witDb ("SELECT 1") (["select"])
    (by rfl) (by decide)).1 (by rfl)

/-- C5 witness: a single insert on the success oracle commits and
returns the insert summary with the timing item. -/
theorem c5_witness :
    executeWriteQuery witEnv astifyInsert witDb ("INSERT INTO t VALUES (1)") =
      ([Ev.getPool, Ev.acquire, Ev.beginTx, Ev.execQuery, Ev.commitTx, Ev.release],
       { content := [{ type := "text",
                       text := writeResponseText (["insert"])
                         (extractSchemaFromQuery witEnv ("INSERT INTO t VALUES (1)")) witDb },
                     timingItem witDb.execDur],
         isError := false }) :=
  (c5_write_path_discipline witEnv astifyInsert witDb ("INSERT INTO t VALUES (1)")
    (["insert"]) (by rfl)).1 (by rfl)

/-- C8 witness: the success envelope of a concrete write run carries the
timing item with the execution duration of the oracle. -/
theorem c8_witness :
    (executeWriteQuery witEnv astifyInsert witDb ("INSERT INTO t VALUES (1)")).2.content.get? 1 =
      some (timingItem witDb.execDur) :=
  (c8_timing_around_exec_only witEnv astifyInsert witDb
    ("INSERT INTO t VALUES (1)")).1 (by decide)

/-- C7 witness: the classification of a concrete two-statement batch. -/
theorem c7_witness :
    getQueryTypes astifySelectInsert ("SELECT 1; INSERT INTO t VALUES (1)") =
      .ok ((([{ type := some ("select") }, { type := some ("INSERT") }] : List SqlAst)).map
        (fun stmt => (stmt.type.map toLowerJS).getD ("unknown"))) ∧
    getQueryTypes astifySelectInsert ("SELECT 1; INSERT INTO t VALUES (1)") =
      .ok (["select", "insert"]) :=
  ⟨((c7_classification astifySelectInsert ("SELECT 1; INSERT INTO t VALUES (1)")).1
      ([{ type := some ("select") }, { type := some ("INSERT") }]) (by rfl)).1,
   by rfl⟩
